import Mathlib

/-!
Verification development for the `metal_monitor` price-monitoring script.

The script's numeric pipeline runs on IEEE-754 floats (pandas/numpy).  We
embed the numeric values as `FVal`: an exact rational together with the
special values NaN, +inf and -inf, with arithmetic following the IEEE rules
on those special values (signed zero is not modelled; the only divisions by
zero the program can perform have a rational numerator, for which the IEEE
result is NaN or a signed infinity, all of which are representable).
Every float operation of the source is an exact rational operation here.
-/

/-- A numpy/pandas scalar: NaN, +inf, -inf, or a finite value (exact ℚ). -/
inductive FVal where
  | nan  : FVal
  | pinf : FVal
  | ninf : FVal
  | fin  : ℚ → FVal
deriving DecidableEq, Repr

namespace FVal

/-- IEEE negation (`-x`). -/
def neg : FVal → FVal
  | nan => nan
  | pinf => ninf
  | ninf => pinf
  | fin q => fin (-q)

/-- IEEE addition. -/
def add : FVal → FVal → FVal
  | nan, _ => nan
  | _, nan => nan
  | pinf, ninf => nan
  | ninf, pinf => nan
  | pinf, _ => pinf
  | _, pinf => pinf
  | ninf, _ => ninf
  | _, ninf => ninf
  | fin a, fin b => fin (a + b)

/-- IEEE subtraction. -/
def sub (x y : FVal) : FVal := add x (neg y)

/-- IEEE multiplication. -/
def mul : FVal → FVal → FVal
  | nan, _ => nan
  | _, nan => nan
  | pinf, pinf => pinf
  | pinf, ninf => ninf
  | ninf, pinf => ninf
  | ninf, ninf => pinf
  | pinf, fin b => if 0 < b then pinf else if b < 0 then ninf else nan
  | fin a, pinf => if 0 < a then pinf else if a < 0 then ninf else nan
  | ninf, fin b => if 0 < b then ninf else if b < 0 then pinf else nan
  | fin a, ninf => if 0 < a then ninf else if a < 0 then pinf else nan
  | fin a, fin b => fin (a * b)

/-- IEEE division (signed zero not modelled: a finite value divided by an
infinity is `fin 0`, and division of a nonzero finite value by zero takes the
sign of the numerator). -/
def div : FVal → FVal → FVal
  | nan, _ => nan
  | _, nan => nan
  | pinf, pinf => nan
  | pinf, ninf => nan
  | ninf, pinf => nan
  | ninf, ninf => nan
  | pinf, fin b => if b < 0 then ninf else pinf
  | ninf, fin b => if b < 0 then pinf else ninf
  | fin _, pinf => fin 0
  | fin _, ninf => fin 0
  | fin a, fin b =>
      if b = 0 then (if 0 < a then pinf else if a < 0 then ninf else nan)
      else fin (a / b)

/-- IEEE `>` comparison (`NaN` compares false against everything). -/
def gt : FVal → FVal → Bool
  | nan, _ => false
  | _, nan => false
  | pinf, pinf => false
  | pinf, _ => true
  | _, pinf => false
  | ninf, _ => false
  | fin _, ninf => true
  | fin a, fin b => decide (b < a)

/-- IEEE `<` comparison. -/
def lt (x y : FVal) : Bool := gt y x

/-- Is this a finite value? -/
def isFin : FVal → Bool
  | fin _ => true
  | _ => false

/-- The rational carried by a finite value (0 otherwise). -/
def toQ : FVal → ℚ
  | fin q => q
  | _ => 0

end FVal

/-!
## `calculate_rsi` (source lines 31–37)

```python
def calculate_rsi(series, period=14):
    delta = series.diff()
    gain = (delta.where(delta > 0, 0)).rolling(window=period).mean()
    loss = (-delta.where(delta < 0, 0)).rolling(window=period).mean()
    rs = gain / loss
    return 100 - (100 / (1 + rs))
```

`series.diff()` puts NaN at position 0 and the first differences after it.
`delta.where(cond, 0)` keeps an element where `cond` holds and writes 0
otherwise; since `NaN > 0` and `NaN < 0` are both false, the leading NaN
becomes 0 in both `gain` and `loss` inputs.  `rolling(window=p).mean()` with
the default `min_periods = p` yields NaN at a position unless the trailing
window of `p` positions is complete and entirely non-NaN, in which case it is
the arithmetic mean of the window.  (Infinite inputs cannot reach the rolling
mean here: the clamped series is finite everywhere.)
-/

/-- First differences of the tail of a price series against a running
previous value: the part of `series.diff()` after its leading NaN. -/
def diffAux (prev : ℚ) : List ℚ → List FVal
  | [] => []
  | y :: ys => FVal.fin (y - prev) :: diffAux y ys

/-- `series.diff()`: NaN first, then consecutive differences. -/
def diffF : List ℚ → List FVal
  | [] => []
  | x :: xs => FVal.nan :: diffAux x xs

/-- `delta.where(delta > 0, 0)` applied elementwise. -/
def wherePos (v : FVal) : FVal := if FVal.gt v (FVal.fin 0) then v else FVal.fin 0

/-- `delta.where(delta < 0, 0)` applied elementwise. -/
def whereNeg (v : FVal) : FVal := if FVal.lt v (FVal.fin 0) then v else FVal.fin 0

/-- The trailing-window rolling mean of `xs` at position `i` with window `w`
(pandas `rolling(window=w).mean()`, default `min_periods = w`): defined only
when the window is complete and all its entries are finite. -/
def rollingMeanAt (w : Nat) (xs : List FVal) (i : Nat) : FVal :=
  if w ≤ i + 1 ∧ i < xs.length then
    if ((List.range w).map (fun k => xs.getD (i - k) FVal.nan)).all FVal.isFin then
      FVal.fin (((((List.range w).map (fun k => xs.getD (i - k) FVal.nan)).map
        FVal.toQ).sum) / (w : ℚ))
    else FVal.nan
  else FVal.nan

/-- `xs.rolling(window=w).mean()` as a whole series. -/
def rollingMean (w : Nat) (xs : List FVal) : List FVal :=
  (List.range xs.length).map (rollingMeanAt w xs)

/-- The final arithmetic of `calculate_rsi`: `100 - (100 / (1 + rs))`. -/
def rsiOfRs (rs : FVal) : FVal :=
  FVal.sub (FVal.fin 100) (FVal.div (FVal.fin 100) (FVal.add (FVal.fin 1) rs))

/-- `calculate_rsi(series, period)` (source lines 31–37). -/
def calculate_rsi (series : List ℚ) (period : Nat := 14) : List FVal :=
  let delta := diffF series
  let gain := rollingMean period (delta.map wherePos)
  let loss := rollingMean period (delta.map (fun v => FVal.neg (whereNeg v)))
  let rs := List.zipWith FVal.div gain loss
  rs.map rsiOfRs

/-!
## `analyze_strategy` (source lines 54–97)

The dataframe is a list of named columns of closing prices.  A Python
exception anywhere in the body is caught by the `try/except` and turned into
`None`; the reachable exceptions are the `KeyError` of `df[code]` on a
missing column and the `IndexError` of `iloc[-2]`/`iloc[-1]` on a series
with fewer than two points, so those paths return `none` here.
-/

/-- The fetched table: one column of closing prices per ticker symbol. -/
abbrev Df := List (String × List ℚ)

/-- The result dict built by `analyze_strategy`. -/
structure Snapshot where
  price : ℚ
  change : FVal
  rsi : FVal
  icon : String
  note : String
deriving DecidableEq, Repr

/-- Block A of `analyze_strategy` (lines 73–76): the status icon chosen from
the day-over-day percent change. -/
def status_icon (change : FVal) : String :=
  if FVal.gt change (FVal.fin 2) then "🔥"
  else if FVal.lt change (FVal.fin (-2)) then "❄️"
  else if FVal.gt change (FVal.fin 0) then "📈"
  else "📉"

/-- Block B of `analyze_strategy` (lines 80–87): the RSI strategy note. -/
def rsi_note (rsi : FVal) : String :=
  if FVal.gt rsi (FVal.fin 75) then " (⚠️過熱 | 勿追高)"
  else if FVal.gt rsi (FVal.fin 50) then " (💪強勢區)"
  else if FVal.lt rsi (FVal.fin 30) then " (✨超賣 | 反彈機會)"
  else " (➡️盤整)"

/-- `analyze_strategy(df, code)` (source lines 54–97). -/
def analyze_strategy (df : Df) (code : String) : Option Snapshot :=
  match df.lookup code with
  | none => none
  | some prices =>
    match prices.reverse with
    | current_price :: prev_price :: _ =>
      let change_pct :=
        FVal.mul (FVal.div (FVal.fin (current_price - prev_price))
                           (FVal.fin prev_price)) (FVal.fin 100)
      let current_rsi := ((calculate_rsi prices 14).getLast?).getD FVal.nan
      some { price := current_price
             change := change_pct
             rsi := current_rsi
             icon := status_icon change_pct
             note := rsi_note current_rsi }
    | _ => none

/-!
## `main` helpers (source lines 144–188) and `plot_chart`, `send_discord_notify`
-/

/-- The `TARGETS` dict of source lines 13–19. -/
def TARGETS : List (String × String) :=
  [("GC=F", "黃金期貨(美)"), ("SI=F", "白銀期貨(美)"), ("DX-Y.NYB", "美元指數"),
   ("00635U.TW", "元大S&P黃金"), ("9955.TW", "佳龍")]

/-- The fixed report order of source line 171. -/
def report_order : List String :=
  ["GC=F", "SI=F", "00635U.TW", "9955.TW", "DX-Y.NYB"]

/-- A pandas frame is `empty` when it has no rows (equivalently here, every
column is empty) or no columns at all. -/
def dfEmpty (df : Df) : Bool := df.all (fun c => c.2.isEmpty)

/-- `df[code].iloc[-1]`, as used for the gold/silver ratio (lines 150–151):
`none` models the KeyError/IndexError raised when the column is missing or
empty. -/
def lastOfCol (df : Df) (code : String) : Option ℚ :=
  (df.lookup code).bind List.getLast?

/-- The gold/silver-ratio classification of source lines 155–158. -/
def gs_status (gs_ratio : FVal) : String :=
  if FVal.gt gs_ratio (FVal.fin 85) then "⚪️ 白銀超跌 (補漲機會大)"
  else if FVal.lt gs_ratio (FVal.fin 60) then "🟡 黃金強勢"
  else "⚖️ 區間正常"

/-- The report loop of source lines 171–181: walk `report_order`, skip a
symbol whose column is absent (`continue`) or whose analysis returned `None`,
and keep the rest in order. -/
def report_entries (df : Df) : List (String × Snapshot) :=
  report_order.filterMap (fun code =>
    if (df.lookup code).isSome then
      (analyze_strategy df code).map (fun s => (code, s))
    else none)

/-- The message assembled by lines 164–183: header material, the ratio line,
then one block per surviving instrument in the fixed order. -/
def build_msg (df : Df) (gs_ratio : FVal) : String :=
  gs_status gs_ratio ++
    String.join ((report_entries df).map (fun e =>
      ((TARGETS.lookup e.1).getD e.1) ++ e.2.icon ++ e.2.note))

/-- What `plot_chart` did: its returned path (or the exception it raised) and
whether `plt.close()` was reached before control left the function. -/
structure RenderOutcome where
  result : Except String String
  closed : Bool
deriving Repr

/-- `plot_chart(df)` (source lines 118–138).  The normalization
`(df / df.iloc[0]) * 100` is per column; `df.iloc[0]` raises IndexError on a
frame with no rows, and `norm_df['GC=F']` etc. raise KeyError when the column
is absent.  `plt.close()` (line 137) sits on the straight-line path after
`savefig`, with no `try`/`finally` around the drawing. -/
def normalizeCol (col : List ℚ) : List FVal :=
  match col.head? with
  | none => []
  | some c0 => col.map (fun x =>
      FVal.mul (FVal.div (FVal.fin x) (FVal.fin c0)) (FVal.fin 100))

/-- `plot_chart(df)`: see `normalizeCol` for the per-column normalization. -/
def plot_chart (df : Df) : RenderOutcome :=
  if dfEmpty df then { result := Except.error "IndexError", closed := false }
  else
    match (df.lookup "GC=F").map normalizeCol,
          (df.lookup "00635U.TW").map normalizeCol,
          (df.lookup "DX-Y.NYB").map normalizeCol with
    | some _, some _, some _ =>
        { result := Except.ok "gold_chart.png", closed := true }
    | _, _, _ => { result := Except.error "KeyError", closed := false }

/-- What a call to `send_discord_notify` did. -/
structure NotifyOutcome where
  sent : Bool
  fileOpened : Bool
  fileClosed : Bool
  escaped : Option String
deriving DecidableEq, Repr

/-- `send_discord_notify(msg, img_path)` (source lines 99–116).  The webhook
URL and the filesystem/HTTP behaviour are parameters: `post` returns the
outcome of `requests.post` (its `Bool` argument tells whether a file part was
attached).  The body opens the image handle only when a path was supplied and
the file exists, runs the post inside `try`/`finally` whose `finally` closes
the handle, and has no `except`: a post exception escapes (after the
`finally`). -/
def send_discord_notify (webhook : Option String) (msg : String)
    (img_path : Option String) (fileExists : String → Bool)
    (post : String → Bool → Except String Unit) : NotifyOutcome :=
  match webhook with
  | none => { sent := false, fileOpened := false, fileClosed := false, escaped := none }
  | some _ =>
    let hasFile : Bool := match img_path with
      | some p => fileExists p
      | none => false
    match post msg hasFile with
    | Except.ok _ =>
        { sent := true, fileOpened := hasFile, fileClosed := hasFile, escaped := none }
    | Except.error e =>
        { sent := false, fileOpened := hasFile, fileClosed := hasFile, escaped := some e }

/-- Observable effects of one run of `main`. -/
structure RunTrace where
  rendered : Bool
  notified : Bool
  loggedError : Option String
deriving DecidableEq, Repr

/-- The `try` body of `main` (source lines 145–185).  `fetch` is the outcome
of `get_market_data()` (a table, or a raised exception), `webhook`,
`fileExists` and `post` parameterize the notifier's externals.  The second
component is the exception escaping the body, if any. -/
def main_try (fetch : Except String Df) (webhook : Option String)
    (fileExists : String → Bool) (post : String → Bool → Except String Unit) :
    RunTrace × Option String :=
  match fetch with
  | Except.error e => (⟨false, false, none⟩, some e)
  | Except.ok df =>
    if dfEmpty df then (⟨false, false, none⟩, none)
    else
      match lastOfCol df "GC=F", lastOfCol df "SI=F" with
      | some gold_price, some silver_price =>
        let gs_ratio := FVal.div (FVal.fin gold_price) (FVal.fin silver_price)
        let po := plot_chart df
        match po.result with
        | Except.error e => (⟨false, false, none⟩, some e)
        | Except.ok img_path =>
          let msg := build_msg df gs_ratio
          let n := send_discord_notify webhook msg (some img_path) fileExists post
          match n.escaped with
          | some e => (⟨true, false, none⟩, some e)
          | none => (⟨true, n.sent, none⟩, none)
      | _, _ => (⟨false, false, none⟩, some "KeyError")

/-- `main()` (source lines 144–188): the body wrapped in the top-level
`except Exception`, which prints the error and falls off the end.  The second
component is an exception escaping `main()` itself.  (Named `main_run`
because Lean reserves `main` for an entry point.) -/
def main_run (fetch : Except String Df) (webhook : Option String)
    (fileExists : String → Bool) (post : String → Bool → Except String Unit) :
    RunTrace × Option String :=
  match main_try fetch webhook fileExists post with
  | (t, some e) => ({ t with loggedError := some e }, none)
  | (t, none) => (t, none)

/-!
## Reference definitions from the specification (for refinement comparison)

The spec's §4.2 reference RSI: first differences of the series,
gain = max(diff, 0), loss = max(−diff, 0), average gain and loss as a simple
rolling mean over a trailing window of `period` periods, RS = avg gain / avg
loss (infinity/NaN when avg loss is 0), RSI = 100 − 100/(1+RS).
-/

/-- Reference first difference of the price series at position `j ≥ 1`:
`s[j] - s[j-1]`. -/
def spec_diff (s : List ℚ) (j : Nat) : ℚ := s.getD j 0 - s.getD (j - 1) 0

/-- Reference average gain at position `i`: the simple mean of
`max(diff, 0)` over the trailing window of `p` differences ending at `i`. -/
def spec_avg_gain (s : List ℚ) (p i : Nat) : ℚ :=
  (((List.range p).map (fun k => max (spec_diff s (i - k)) 0)).sum) / (p : ℚ)

/-- Reference average loss at position `i`: the simple mean of
`max(−diff, 0)` over the trailing window of `p` differences ending at `i`. -/
def spec_avg_loss (s : List ℚ) (p i : Nat) : ℚ :=
  (((List.range p).map (fun k => max (-(spec_diff s (i - k))) 0)).sum) / (p : ℚ)

/-- The spec's reference RSI at position `i` of the series: defined exactly
when a full trailing window of `p` first differences exists (`p ≤ i`, so at
least `p + 1` price points up to `i`), undefined (NaN) otherwise; the final
arithmetic `100 - 100/(1 + gain/loss)` follows the same IEEE rules the spec
prescribes for a zero average loss. -/
def spec_rsi_at (s : List ℚ) (p i : Nat) : FVal :=
  if p ≤ i ∧ i < s.length then
    rsiOfRs (FVal.div (FVal.fin (spec_avg_gain s p i)) (FVal.fin (spec_avg_loss s p i)))
  else FVal.nan

/-- Did the renderer return normally? -/
def exceptIsOk : Except String String → Bool
  | Except.ok _ => true
  | Except.error _ => false

/-!
## Helper lemmas
-/

theorem gt_fin_fin (a b : ℚ) : FVal.gt (FVal.fin a) (FVal.fin b) = decide (b < a) := rfl

theorem lt_fin_fin (a b : ℚ) : FVal.lt (FVal.fin a) (FVal.fin b) = decide (a < b) := rfl

/-!
## C2: the gold/silver ratio classifier
-/

/-- C2: the gold/silver ratio classifier uses strict comparisons: ratio > 85
selects the silver-oversold label, ratio < 60 the gold-strong label, and
everything in between — including the boundary values 85.0 and 60.0 — the
normal-range label; and a gold price of 2000 against a silver price of 23
(ratio 2000/23 ≈ 86.96) selects the silver-oversold label. -/
theorem c2_gs_ratio_classifier :
    (∀ r : ℚ, 85 < r → gs_status (FVal.fin r) = "⚪️ 白銀超跌 (補漲機會大)") ∧
    (∀ r : ℚ, r < 60 → gs_status (FVal.fin r) = "🟡 黃金強勢") ∧
    (∀ r : ℚ, 60 ≤ r → r ≤ 85 → gs_status (FVal.fin r) = "⚖️ 區間正常") ∧
    gs_status (FVal.fin 85) = "⚖️ 區間正常" ∧
    gs_status (FVal.fin 60) = "⚖️ 區間正常" ∧
    gs_status (FVal.div (FVal.fin 2000) (FVal.fin 23)) = "⚪️ 白銀超跌 (補漲機會大)" := by
  refine ⟨?_, ?_, ?_, ?_, ?_, ?_⟩
  · intro r h
    simp [gs_status, gt_fin_fin, h]
  · intro r h
    have h85 : ¬ (85 : ℚ) < r := by linarith
    simp [gs_status, gt_fin_fin, FVal.lt, h, h85]
  · intro r h60 h85
    simp [gs_status, gt_fin_fin, FVal.lt, not_lt.mpr h85, not_lt.mpr h60]
  · norm_num [gs_status, gt_fin_fin, FVal.lt]
  · norm_num [gs_status, gt_fin_fin, FVal.lt]
  · norm_num [gs_status, FVal.div, gt_fin_fin]

/-- Witness for C2 at concrete ratios 90, 50 and 70. -/
theorem c2_gs_ratio_classifier_witness :
    gs_status (FVal.fin 90) = "⚪️ 白銀超跌 (補漲機會大)" ∧
    gs_status (FVal.fin 50) = "🟡 黃金強勢" ∧
    gs_status (FVal.fin 70) = "⚖️ 區間正常" :=
  ⟨c2_gs_ratio_classifier.1 90 (by norm_num),
   c2_gs_ratio_classifier.2.1 50 (by norm_num),
   c2_gs_ratio_classifier.2.2.1 70 (by norm_num) (by norm_num)⟩

/-!
## C8: chart normalization
-/

/-- C8 counterexample: for a series whose first observation is 0 the
normalized first entry is NaN (0/0), not 100, so the normalization does not
yield 100 at the first index for *every* series. -/
theorem c8_counterexample :
    (normalizeCol [(0 : ℚ), 1]).head? = some FVal.nan ∧
    some FVal.nan ≠ some (FVal.fin 100) := by
  constructor
  · norm_num [normalizeCol, FVal.div, FVal.mul]
  · simp

/-- C8 (amended): for every series whose first observation is nonzero, the
chart normalization `(df / df.iloc[0]) * 100` yields exactly 100 at the
first index, regardless of the series' absolute magnitude. -/
theorem c8_normalize_first_is_100 (col : List ℚ) (c0 : ℚ)
    (h : col.head? = some c0) (h0 : c0 ≠ 0) :
    (normalizeCol col).head? = some (FVal.fin 100) := by
  cases col with
  | nil => simp at h
  | cons a l =>
    simp only [List.head?_cons, Option.some.injEq] at h
    subst h
    simp [normalizeCol, FVal.div, FVal.mul, h0, div_self h0]

/-- Witness for C8 at the series [5, 2]. -/
theorem c8_normalize_first_is_100_witness :
    (normalizeCol [(5 : ℚ), 2]).head? = some (FVal.fin 100) :=
  c8_normalize_first_is_100 [(5 : ℚ), 2] 5 rfl (by norm_num)

/-!
## C9: the chart renderer and its plot context
-/

/-- C9 counterexample: on the drawing-fails path (gold-futures column absent
from the table) `plot_chart` raises without ever reaching `plt.close()`: the
plot context is not released on that path. -/
theorem c9_counterexample :
    (plot_chart [("SI=F", [(1 : ℚ)])]).closed = false ∧
    (plot_chart [("SI=F", [(1 : ℚ)])]).result = Except.error "KeyError" := by
  constructor <;> rfl

/-- C9 (amended): the renderer closes its plot context exactly on the
successful path — `plt.close()` is reached iff drawing and saving completed;
when drawing fails (required series absent, or no rows) the exception
propagates with the context left open. -/
theorem c9_plot_close_iff_ok (df : Df) :
    (plot_chart df).closed = exceptIsOk (plot_chart df).result := by
  unfold plot_chart exceptIsOk
  split
  · rfl
  · split <;> rfl

/-!
## C10: the notifier's image file handle
-/

/-- C10: whenever the notifier runs with a configured webhook and an image
path naming an existing file, the file handle it opens is closed before the
call completes — both when the HTTP post succeeds and when it raises, and in
the latter case the exception still propagates (after the `finally` closed
the handle). -/
theorem c10_notify_closes_handle (url msg p : String) (fileExists : String → Bool)
    (post : String → Bool → Except String Unit) (h : fileExists p = true) :
    ((post msg true = Except.ok () →
        send_discord_notify (some url) msg (some p) fileExists post =
          { sent := true, fileOpened := true, fileClosed := true, escaped := none }) ∧
     (∀ e, post msg true = Except.error e →
        send_discord_notify (some url) msg (some p) fileExists post =
          { sent := false, fileOpened := true, fileClosed := true, escaped := some e })) := by
  constructor
  · intro hp
    simp [send_discord_notify, h, hp]
  · intro e hp
    simp [send_discord_notify, h, hp]

/-- Witness for C10: a post that raises still leaves the handle closed and
the exception escaping. -/
theorem c10_notify_closes_handle_witness :
    send_discord_notify (some "u") "m" (some "img") (fun _ => true)
        (fun _ _ => Except.error "boom") =
      { sent := false, fileOpened := true, fileClosed := true, escaped := some "boom" } :=
  (c10_notify_closes_handle "u" "m" "img" (fun _ => true)
    (fun _ _ => Except.error "boom") rfl).2 "boom" rfl

/-!
## C7: the orchestrator never lets an exception escape
-/

/-- C7: whatever the fetch outcome, webhook configuration, filesystem and
HTTP behaviour, (1) no exception escapes `main()` — an exception raised by
any stage of the body is logged and swallowed by the top-level handler — and
(2) when the fetched table is empty the run returns immediately after the
fetch: nothing rendered, nothing notified, nothing logged. -/
theorem c7_orchestrator_never_raises :
    (∀ (fetch : Except String Df) (webhook : Option String)
       (fileExists : String → Bool) (post : String → Bool → Except String Unit),
       (main_run fetch webhook fileExists post).2 = none) ∧
    (∀ (fetch : Except String Df) (webhook : Option String)
       (fileExists : String → Bool) (post : String → Bool → Except String Unit)
       (t : RunTrace) (e : String),
       main_try fetch webhook fileExists post = (t, some e) →
       main_run fetch webhook fileExists post = ({ t with loggedError := some e }, none)) ∧
    (∀ (df : Df) (webhook : Option String)
       (fileExists : String → Bool) (post : String → Bool → Except String Unit),
       dfEmpty df = true →
       main_run (Except.ok df) webhook fileExists post =
         (⟨false, false, none⟩, none)) := by
  refine ⟨?_, ?_, ?_⟩
  · intro fetch webhook fileExists post
    unfold main_run
    rcases h : main_try fetch webhook fileExists post with ⟨t, exc⟩
    cases exc <;> simp
  · intro fetch webhook fileExists post t e h
    unfold main_run
    rw [h]
  · intro df webhook fileExists post h
    unfold main_run main_try
    simp [h]

/-- Witness for C7 on a concrete empty table. -/
theorem c7_orchestrator_never_raises_witness :
    main_run (Except.ok ([] : Df)) none (fun _ => false) (fun _ _ => Except.ok ()) =
      (⟨false, false, none⟩, none) :=
  c7_orchestrator_never_raises.2.2 [] none (fun _ => false) (fun _ _ => Except.ok ()) rfl

/-!
## C6: failed instruments are silently omitted, the rest keep the fixed order
-/

theorem analyze_none_of_no_col (df : Df) (code : String)
    (h : df.lookup code = none) : analyze_strategy df code = none := by
  unfold analyze_strategy
  rw [h]

theorem report_entries_names (df : Df) (l : List String) :
    (l.filterMap (fun code =>
        if (df.lookup code).isSome then
          (analyze_strategy df code).map (fun s => (code, s))
        else none)).map Prod.fst =
      l.filter (fun code => (analyze_strategy df code).isSome) := by
  induction l with
  | nil => rfl
  | cons c l ih =>
    rw [List.filterMap_cons, List.filter_cons]
    cases hl : df.lookup c with
    | none =>
      simp [analyze_none_of_no_col df c hl, ih]
    | some prices =>
      cases ha : analyze_strategy df c with
      | none => simp [hl, ha, ih]
      | some s => simp [hl, ha, ih]

/-- C6: every instrument of the report order whose column is absent or whose
snapshot computation fails (returns `None` via its `try`/`except`) is
silently omitted, and the survivors are reported exactly in the fixed report
order; concretely, a table carrying only the gold-futures and USD-index
columns reports exactly those two, in the fixed order. -/
theorem c6_report_skips_failures :
    (∀ df : Df, (report_entries df).map Prod.fst =
      report_order.filter (fun code => (analyze_strategy df code).isSome)) ∧
    (report_entries [("GC=F", [(1 : ℚ), 2]), ("DX-Y.NYB", [(3 : ℚ), 4])]).map Prod.fst =
      ["GC=F", "DX-Y.NYB"] := by
  constructor
  · intro df
    exact report_entries_names df report_order
  · rfl

/-!
## Length and short-series lemmas for `calculate_rsi`
-/

theorem diffAux_length (x : ℚ) (l : List ℚ) : (diffAux x l).length = l.length := by
  induction l generalizing x with
  | nil => rfl
  | cons y ys ih => simp [diffAux, ih]

theorem diffF_length (s : List ℚ) : (diffF s).length = s.length := by
  cases s with
  | nil => rfl
  | cons x xs => simp [diffF, diffAux_length]

theorem rsiOfRs_nan : rsiOfRs FVal.nan = FVal.nan := rfl

theorem zipWith_replicate_fval (f : FVal → FVal → FVal) (n : Nat) (a b : FVal) :
    List.zipWith f (List.replicate n a) (List.replicate n b) =
      List.replicate n (f a b) := by
  induction n with
  | zero => rfl
  | succ n ih => simp [List.replicate_succ, ih]

theorem rollingMean_of_short (p : Nat) (xs : List FVal) (h : xs.length < p) :
    rollingMean p xs = List.replicate xs.length FVal.nan := by
  unfold rollingMean
  rw [List.eq_replicate_iff]
  refine ⟨by simp, ?_⟩
  intro b hb
  rcases List.mem_map.mp hb with ⟨i, hi, hfi⟩
  rw [List.mem_range] at hi
  have : ¬ (p ≤ i + 1 ∧ i < xs.length) := by
    rintro ⟨h1, -⟩
    omega
  rw [← hfi]
  simp [rollingMeanAt, this]

/-- A series strictly shorter than the window yields NaN everywhere. -/
theorem calculate_rsi_short (s : List ℚ) (p : Nat) (h : s.length < p) :
    calculate_rsi s p = List.replicate s.length FVal.nan := by
  have hg : ((diffF s).map wherePos).length = s.length := by
    simp [diffF_length]
  have hlo : ((diffF s).map (fun v => FVal.neg (whereNeg v))).length = s.length := by
    simp [diffF_length]
  simp only [calculate_rsi]
  rw [rollingMean_of_short _ _ (by rw [hg]; exact h),
      rollingMean_of_short _ _ (by rw [hlo]; exact h), hg, hlo,
      zipWith_replicate_fval, List.map_replicate]
  rfl

/-!
## C3: percent change on the last two observations, and the status icon
-/

theorem analyze_strategy_eq (df : Df) (code : String) (prices : List ℚ)
    (current prev : ℚ) (rest : List ℚ)
    (hl : df.lookup code = some prices)
    (hr : prices.reverse = current :: prev :: rest) :
    analyze_strategy df code = some
      { price := current
        change := FVal.mul (FVal.div (FVal.fin (current - prev)) (FVal.fin prev))
                    (FVal.fin 100)
        rsi := ((calculate_rsi prices 14).getLast?).getD FVal.nan
        icon := status_icon (FVal.mul (FVal.div (FVal.fin (current - prev))
                  (FVal.fin prev)) (FVal.fin 100))
        note := rsi_note (((calculate_rsi prices 14).getLast?).getD FVal.nan) } := by
  simp only [analyze_strategy, hl, hr]


/-- C3: whenever `analyze_strategy` reports a snapshot, its percent change is
`(latest − previous) / previous × 100` computed from the last two
observations of the looked-up series only, and its icon is chosen from that
change by: change > 2 gives the big-up icon, change < −2 the big-down icon,
change > 0 the up icon, otherwise the down icon; in particular the series
[100, 102, 98, 95, 110] yields change `300/19` % (= +15.79 % to two decimal
places) and the big-up icon. -/
theorem c3_change_and_icon :
    (∀ (df : Df) (code : String) (s : Snapshot),
      analyze_strategy df code = some s →
      ∃ (prices : List ℚ) (current prev : ℚ) (rest : List ℚ),
        df.lookup code = some prices ∧
        prices.reverse = current :: prev :: rest ∧
        s.change = FVal.mul (FVal.div (FVal.fin (current - prev)) (FVal.fin prev))
                     (FVal.fin 100) ∧
        s.icon = status_icon s.change) ∧
    (∀ q : ℚ, 2 < q → status_icon (FVal.fin q) = "🔥") ∧
    (∀ q : ℚ, q < -2 → status_icon (FVal.fin q) = "❄️") ∧
    (∀ q : ℚ, 0 < q → q ≤ 2 → status_icon (FVal.fin q) = "📈") ∧
    (∀ q : ℚ, -2 ≤ q → q ≤ 0 → status_icon (FVal.fin q) = "📉") ∧
    (∃ s : Snapshot,
      analyze_strategy [("GC=F", [100, 102, 98, 95, 110])] "GC=F" = some s ∧
      s.change = FVal.fin (300 / 19) ∧ s.icon = "🔥" ∧
      |(300 : ℚ) / 19 - 1579 / 100| < 1 / 200) := by
  refine ⟨?_, ?_, ?_, ?_, ?_, ?_⟩
  · intro df code s h
    rcases hl : df.lookup code with - | prices
    · rw [analyze_none_of_no_col df code hl] at h
      cases h
    · rcases hr : prices.reverse with - | ⟨current, - | ⟨prev, rest⟩⟩
      · simp only [analyze_strategy, hl, hr] at h
        cases h
      · simp only [analyze_strategy, hl, hr] at h
        cases h
      · rw [analyze_strategy_eq df code prices current prev rest hl hr] at h
        refine ⟨prices, current, prev, rest, rfl, hr, ?_, ?_⟩
        · rw [← Option.some_inj.mp h]
        · rw [← Option.some_inj.mp h]
  · intro q h
    simp [status_icon, gt_fin_fin, h]
  · intro q h
    have h2 : ¬ (2 : ℚ) < q := by linarith
    simp [status_icon, gt_fin_fin, lt_fin_fin, h, h2]
  · intro q h0 h2
    have ha : ¬ (2 : ℚ) < q := by linarith
    have hb : ¬ q < (-2 : ℚ) := by linarith
    simp [status_icon, gt_fin_fin, lt_fin_fin, h0, ha, hb]
  · intro q ha hb
    have h1 : ¬ (2 : ℚ) < q := by linarith
    have h2 : ¬ q < (-2 : ℚ) := by linarith
    have h3 : ¬ (0 : ℚ) < q := by linarith
    simp [status_icon, gt_fin_fin, lt_fin_fin, h1, h2, h3]
  · have hch : FVal.mul (FVal.div (FVal.fin ((110:ℚ) - 95)) (FVal.fin 95)) (FVal.fin 100) =
        FVal.fin (300 / 19) := by
      norm_num [FVal.div, FVal.mul]
    refine ⟨_, analyze_strategy_eq [("GC=F", [100, 102, 98, 95, 110])] "GC=F"
        [100, 102, 98, 95, 110] 110 95 [98, 102, 100] rfl (by norm_num), ?_, ?_,
        by rw [abs_sub_lt_iff]; constructor <;> norm_num⟩
    · exact hch
    · show status_icon _ = _
      rw [hch]
      norm_num [status_icon, gt_fin_fin]

/-- Witness for C3 at the concrete changes +3, −3, +1 and 0. -/
theorem c3_change_and_icon_witness :
    status_icon (FVal.fin 3) = "🔥" ∧ status_icon (FVal.fin (-3)) = "❄️" ∧
    status_icon (FVal.fin 1) = "📈" ∧ status_icon (FVal.fin 0) = "📉" :=
  ⟨c3_change_and_icon.2.1 3 (by norm_num),
   c3_change_and_icon.2.2.1 (-3) (by norm_num),
   c3_change_and_icon.2.2.2.1 1 (by norm_num) (by norm_num),
   c3_change_and_icon.2.2.2.2.1 0 (by norm_num) (by norm_num)⟩

/-!
## Positional characterization of `calculate_rsi`
-/

theorem diffAux_get? (x : ℚ) (l : List ℚ) (k : Nat) (hk : k < l.length) :
    (diffAux x l).get? k =
      some (FVal.fin (l.getD k 0 - (if k = 0 then x else l.getD (k - 1) 0))) := by
  induction l generalizing x k with
  | nil => simp at hk
  | cons y ys ih =>
    cases k with
    | zero => simp [diffAux]
    | succ k =>
      have hk' : k < ys.length := by simpa using hk
      simp only [diffAux, List.get?_cons_succ]
      rw [ih y k hk']
      congr 2
      cases k with
      | zero => simp
      | succ k => simp

theorem diffF_get? (s : List ℚ) (j : Nat) (h1 : 1 ≤ j) (hj : j < s.length) :
    (diffF s).get? j = some (FVal.fin (spec_diff s j)) := by
  cases s with
  | nil => simp at hj
  | cons x xs =>
    cases j with
    | zero => omega
    | succ j =>
      have hj' : j < xs.length := by simpa using hj
      show (FVal.nan :: diffAux x xs).get? (j + 1) = _
      rw [List.get?_cons_succ, diffAux_get? x xs j hj']
      unfold spec_diff
      congr 2
      cases j with
      | zero => simp
      | succ j => simp

theorem wherePos_fin (d : ℚ) : wherePos (FVal.fin d) = FVal.fin (max d 0) := by
  unfold wherePos
  rw [gt_fin_fin]
  rcases le_or_lt d 0 with h | h
  · simp [not_lt.mpr h, max_eq_right h]
  · simp [h, max_eq_left (le_of_lt h)]

theorem negWhereNeg_fin (d : ℚ) :
    FVal.neg (whereNeg (FVal.fin d)) = FVal.fin (max (-d) 0) := by
  unfold whereNeg
  rw [lt_fin_fin]
  rcases lt_or_le d 0 with h | h
  · simp [h, FVal.neg, max_eq_left (by linarith : (0:ℚ) ≤ -d)]
  · simp [not_lt.mpr h, FVal.neg, max_eq_right (by linarith : -d ≤ (0:ℚ))]

theorem gains_getD (s : List ℚ) (j : Nat) (h1 : 1 ≤ j) (hj : j < s.length) :
    ((diffF s).map wherePos).getD j FVal.nan = FVal.fin (max (spec_diff s j) 0) := by
  rw [List.getD_eq_get?, List.get?_map, diffF_get? s j h1 hj]
  simp [wherePos_fin]

theorem losses_getD (s : List ℚ) (j : Nat) (h1 : 1 ≤ j) (hj : j < s.length) :
    ((diffF s).map (fun v => FVal.neg (whereNeg v))).getD j FVal.nan =
      FVal.fin (max (-(spec_diff s j)) 0) := by
  rw [List.getD_eq_get?, List.get?_map, diffF_get? s j h1 hj]
  simp [negWhereNeg_fin]

theorem rollingMeanAt_gains (s : List ℚ) (p i : Nat) (hpi : p ≤ i)
    (hi : i < s.length) :
    rollingMeanAt p ((diffF s).map wherePos) i = FVal.fin (spec_avg_gain s p i) := by
  have hlen : ((diffF s).map wherePos).length = s.length := by simp [diffF_length]
  have hwin : ∀ k ∈ List.range p,
      ((diffF s).map wherePos).getD (i - k) FVal.nan =
        FVal.fin (max (spec_diff s (i - k)) 0) := by
    intro k hk
    rw [List.mem_range] at hk
    exact gains_getD s (i - k) (by omega) (by omega)
  unfold rollingMeanAt
  rw [if_pos ⟨by omega, by rw [hlen]; exact hi⟩, List.map_congr_left hwin]
  rw [if_pos]
  · unfold spec_avg_gain
    congr 1
    rw [List.map_map]
    rfl
  · simp [List.all_eq_true, FVal.isFin]

theorem rollingMeanAt_losses (s : List ℚ) (p i : Nat) (hpi : p ≤ i)
    (hi : i < s.length) :
    rollingMeanAt p ((diffF s).map (fun v => FVal.neg (whereNeg v))) i =
      FVal.fin (spec_avg_loss s p i) := by
  have hlen : ((diffF s).map (fun v => FVal.neg (whereNeg v))).length = s.length := by
    simp [diffF_length]
  have hwin : ∀ k ∈ List.range p,
      ((diffF s).map (fun v => FVal.neg (whereNeg v))).getD (i - k) FVal.nan =
        FVal.fin (max (-(spec_diff s (i - k))) 0) := by
    intro k hk
    rw [List.mem_range] at hk
    exact losses_getD s (i - k) (by omega) (by omega)
  unfold rollingMeanAt
  rw [if_pos ⟨by omega, by rw [hlen]; exact hi⟩, List.map_congr_left hwin]
  rw [if_pos]
  · unfold spec_avg_loss
    congr 1
    rw [List.map_map]
    rfl
  · simp [List.all_eq_true, FVal.isFin]

theorem calculate_rsi_length (s : List ℚ) (p : Nat) :
    (calculate_rsi s p).length = s.length := by
  simp [calculate_rsi, rollingMean, diffF_length]

theorem calculate_rsi_get?_eq (s : List ℚ) (p i : Nat) (hi : i < s.length) :
    (calculate_rsi s p).get? i =
      some (rsiOfRs (FVal.div
        (rollingMeanAt p ((diffF s).map wherePos) i)
        (rollingMeanAt p ((diffF s).map (fun v => FVal.neg (whereNeg v))) i))) := by
  have hg : ((diffF s).map wherePos).length = s.length := by simp [diffF_length]
  have hlo : ((diffF s).map (fun v => FVal.neg (whereNeg v))).length = s.length := by
    simp [diffF_length]
  simp only [calculate_rsi, rollingMean, hg, hlo]
  rw [List.zipWith_map, List.zipWith_same, List.map_map, List.get?_map,
    List.get?_range hi]
  rfl

theorem calculate_rsi_get?_nan (s : List ℚ) (p i : Nat) (hi : i < s.length)
    (hip : i + 1 < p) :
    (calculate_rsi s p).get? i = some FVal.nan := by
  rw [calculate_rsi_get?_eq s p i hi]
  have h1 : rollingMeanAt p ((diffF s).map wherePos) i = FVal.nan := by
    unfold rollingMeanAt
    rw [if_neg]
    rintro ⟨h, -⟩
    omega
  have h2 : rollingMeanAt p ((diffF s).map (fun v => FVal.neg (whereNeg v))) i =
      FVal.nan := by
    unfold rollingMeanAt
    rw [if_neg]
    rintro ⟨h, -⟩
    omega
  rw [h1, h2]
  rfl

theorem spec_avg_gain_nonneg (s : List ℚ) (p i : Nat) : 0 ≤ spec_avg_gain s p i := by
  unfold spec_avg_gain
  apply div_nonneg _ (by positivity)
  apply List.sum_nonneg
  intro x hx
  rcases List.mem_map.mp hx with ⟨k, -, rfl⟩
  exact le_max_right _ _

theorem spec_avg_loss_nonneg (s : List ℚ) (p i : Nat) : 0 ≤ spec_avg_loss s p i := by
  unfold spec_avg_loss
  apply div_nonneg _ (by positivity)
  apply List.sum_nonneg
  intro x hx
  rcases List.mem_map.mp hx with ⟨k, -, rfl⟩
  exact le_max_right _ _

theorem rsiOfRs_pinf : rsiOfRs FVal.pinf = FVal.fin 100 := by
  show FVal.fin (100 + -0) = FVal.fin 100
  norm_num

theorem div_fin_fin_pos_zero (g : ℚ) (hg : 0 < g) :
    FVal.div (FVal.fin g) (FVal.fin 0) = FVal.pinf := by
  simp [FVal.div, hg]

theorem div_fin_zero_zero : FVal.div (FVal.fin 0) (FVal.fin 0) = FVal.nan := by
  simp [FVal.div]

theorem rsiOfRs_div_fin (g l : ℚ) (hl : l ≠ 0) (h1 : 1 + g / l ≠ 0) :
    rsiOfRs (FVal.div (FVal.fin g) (FVal.fin l)) =
      FVal.fin (100 - 100 / (1 + g / l)) := by
  simp [rsiOfRs, FVal.div, FVal.add, FVal.sub, FVal.neg, hl, h1, sub_eq_add_neg]

/-!
## C1: the RSI computation against the spec's reference definition
-/

/-- C1 counterexample: on a 14-point series (one gain, then flat) the code
emits RSI = 100 at index 13 — pandas clamps the undefined first difference to
a zero gain/loss and counts it in the window — while the spec's reference
rolling mean of 14 first differences is not yet defined there (NaN).  The
computation therefore does not equal the reference on every series. -/
theorem c1_counterexample :
    (calculate_rsi [1, 2, 2, 2, 2, 2, 2, 2, 2, 2, 2, 2, 2, (2:ℚ)] 14).get? 13 =
      some (FVal.fin 100) ∧
    spec_rsi_at [1, 2, 2, 2, 2, 2, 2, 2, 2, 2, 2, 2, 2, (2:ℚ)] 14 13 = FVal.nan ∧
    FVal.fin 100 ≠ FVal.nan := by
  refine ⟨?_, ?_, by simp⟩
  · have h1 : diffF [1, 2, 2, 2, 2, 2, 2, 2, 2, 2, 2, 2, 2, (2:ℚ)] =
        [FVal.nan, FVal.fin 1, FVal.fin 0, FVal.fin 0, FVal.fin 0, FVal.fin 0,
         FVal.fin 0, FVal.fin 0, FVal.fin 0, FVal.fin 0, FVal.fin 0, FVal.fin 0,
         FVal.fin 0, FVal.fin 0] := by
      norm_num [diffF, diffAux]
    have h2 : (diffF [1, 2, 2, 2, 2, 2, 2, 2, 2, 2, 2, 2, 2, (2:ℚ)]).map wherePos =
        [FVal.fin 0, FVal.fin 1, FVal.fin 0, FVal.fin 0, FVal.fin 0, FVal.fin 0,
         FVal.fin 0, FVal.fin 0, FVal.fin 0, FVal.fin 0, FVal.fin 0, FVal.fin 0,
         FVal.fin 0, FVal.fin 0] := by
      rw [h1]
      norm_num [wherePos, FVal.gt]
    have h3 : (diffF [1, 2, 2, 2, 2, 2, 2, 2, 2, 2, 2, 2, 2, (2:ℚ)]).map
        (fun v => FVal.neg (whereNeg v)) =
        [FVal.fin 0, FVal.fin 0, FVal.fin 0, FVal.fin 0, FVal.fin 0, FVal.fin 0,
         FVal.fin 0, FVal.fin 0, FVal.fin 0, FVal.fin 0, FVal.fin 0, FVal.fin 0,
         FVal.fin 0, FVal.fin 0] := by
      rw [h1]
      norm_num [whereNeg, FVal.lt, FVal.gt, FVal.neg]
    have hg13 : rollingMeanAt 14
        [FVal.fin 0, FVal.fin 1, FVal.fin 0, FVal.fin 0, FVal.fin 0, FVal.fin 0,
         FVal.fin 0, FVal.fin 0, FVal.fin 0, FVal.fin 0, FVal.fin 0, FVal.fin 0,
         FVal.fin 0, FVal.fin 0] 13 = FVal.fin (1 / 14) := by
      unfold rollingMeanAt
      rw [if_pos (by constructor <;> norm_num), if_pos (by decide)]
      rw [show ((List.range 14).map (fun k =>
          List.getD [FVal.fin 0, FVal.fin 1, FVal.fin 0, FVal.fin 0, FVal.fin 0,
            FVal.fin 0, FVal.fin 0, FVal.fin 0, FVal.fin 0, FVal.fin 0, FVal.fin 0,
            FVal.fin 0, FVal.fin 0, FVal.fin 0] (13 - k) FVal.nan)).map FVal.toQ =
          [0, 0, 0, 0, 0, 0, 0, 0, 0, 0, 0, 0, 1, 0] from by decide]
      norm_num
    have hl13 : rollingMeanAt 14
        [FVal.fin 0, FVal.fin 0, FVal.fin 0, FVal.fin 0, FVal.fin 0, FVal.fin 0,
         FVal.fin 0, FVal.fin 0, FVal.fin 0, FVal.fin 0, FVal.fin 0, FVal.fin 0,
         FVal.fin 0, FVal.fin 0] 13 = FVal.fin 0 := by
      unfold rollingMeanAt
      rw [if_pos (by constructor <;> norm_num), if_pos (by decide)]
      rw [show ((List.range 14).map (fun k =>
          List.getD [FVal.fin 0, FVal.fin 0, FVal.fin 0, FVal.fin 0, FVal.fin 0,
            FVal.fin 0, FVal.fin 0, FVal.fin 0, FVal.fin 0, FVal.fin 0, FVal.fin 0,
            FVal.fin 0, FVal.fin 0, FVal.fin 0] (13 - k) FVal.nan)).map FVal.toQ =
          [0, 0, 0, 0, 0, 0, 0, 0, 0, 0, 0, 0, 0, 0] from by decide]
      norm_num
    rw [calculate_rsi_get?_eq _ 14 13 (by norm_num), h2, h3, hg13, hl13,
      div_fin_fin_pos_zero _ (by norm_num), rsiOfRs_pinf]
  · simp [spec_rsi_at]

/-- C1 (amended): at every index other than `period − 1` — i.e. wherever at
least `period + 1` price points are available up to the index, and on the
entire NaN head before a window fits — the RSI computation equals the spec's
reference definition: first differences, gain = max(diff, 0),
loss = max(−diff, 0), simple rolling means over a trailing window of `period`
periods, RS = avg gain / avg loss, RSI = 100 − 100/(1+RS).  At index
`period − 1` exactly (14 points for the default window of 14) the code alone
emits a value, counting the clamped first difference as a zero gain/loss. -/
theorem c1_rsi_matches_spec (s : List ℚ) (p i : Nat) (hp : 1 ≤ p)
    (hi : i < s.length) (hne : i ≠ p - 1) :
    (calculate_rsi s p).get? i = some (spec_rsi_at s p i) := by
  rcases le_or_lt p i with hpi | hip
  · rw [calculate_rsi_get?_eq s p i hi, rollingMeanAt_gains s p i hpi hi,
      rollingMeanAt_losses s p i hpi hi]
    unfold spec_rsi_at
    rw [if_pos ⟨hpi, hi⟩]
  · have hip1 : i + 1 < p := by omega
    rw [calculate_rsi_get?_nan s p i hi hip1]
    unfold spec_rsi_at
    rw [if_neg]
    rintro ⟨h, -⟩
    omega

/-- Witness for C1 at the 15-point alternating series, last index. -/
theorem c1_rsi_matches_spec_witness :
    (calculate_rsi [1, 2, 1, 2, 1, 2, 1, 2, 1, 2, 1, 2, 1, 2, (1:ℚ)] 14).get? 14 =
      some (spec_rsi_at [1, 2, 1, 2, 1, 2, 1, 2, 1, 2, 1, 2, 1, 2, (1:ℚ)] 14 14) :=
  c1_rsi_matches_spec [1, 2, 1, 2, 1, 2, 1, 2, 1, 2, 1, 2, 1, 2, (1:ℚ)] 14 14
    (by norm_num) (by norm_num) (by norm_num)

/-!
## C4: range of the computed RSI
-/

theorem spec_avg_gain_ones :
    spec_avg_gain [1, 1, 1, 1, 1, 1, 1, 1, 1, 1, 1, 1, 1, 1, (1:ℚ)] 14 14 = 0 := by
  have hgd : ∀ n, n < 15 →
      List.getD [1, 1, 1, 1, 1, 1, 1, 1, 1, 1, 1, 1, 1, 1, (1:ℚ)] n 0 = 1 := by decide
  unfold spec_avg_gain
  rw [List.map_congr_left (g := fun _ => (0 : ℚ))]
  · simp
  · intro k hk
    rw [List.mem_range] at hk
    unfold spec_diff
    rw [hgd (14 - k) (by omega), hgd (14 - k - 1) (by omega)]
    norm_num

theorem spec_avg_loss_ones :
    spec_avg_loss [1, 1, 1, 1, 1, 1, 1, 1, 1, 1, 1, 1, 1, 1, (1:ℚ)] 14 14 = 0 := by
  have hgd : ∀ n, n < 15 →
      List.getD [1, 1, 1, 1, 1, 1, 1, 1, 1, 1, 1, 1, 1, 1, (1:ℚ)] n 0 = 1 := by decide
  unfold spec_avg_loss
  rw [List.map_congr_left (g := fun _ => (0 : ℚ))]
  · simp
  · intro k hk
    rw [List.mem_range] at hk
    unfold spec_diff
    rw [hgd (14 - k) (by omega), hgd (14 - k - 1) (by omega)]
    norm_num

/-- A constant 15-point price series has an undefined (NaN) latest RSI:
both rolling averages are 0 and 0/0 is NaN. -/
theorem rsi_const15_nan :
    (calculate_rsi [1, 1, 1, 1, 1, 1, 1, 1, 1, 1, 1, 1, 1, 1, (1:ℚ)] 14).getLast? =
      some FVal.nan := by
  rw [List.getLast?_eq_get?, calculate_rsi_length]
  show (calculate_rsi [1, 1, 1, 1, 1, 1, 1, 1, 1, 1, 1, 1, 1, 1, (1:ℚ)] 14).get? 14 =
    some FVal.nan
  rw [calculate_rsi_get?_eq _ 14 14 (by norm_num),
    rollingMeanAt_gains _ 14 14 (le_refl 14) (by norm_num),
    rollingMeanAt_losses _ 14 14 (le_refl 14) (by norm_num),
    spec_avg_gain_ones, spec_avg_loss_ones, div_fin_zero_zero, rsiOfRs_nan]

/-- C4 counterexample: the constant series of 15 ones has at least 15 valid
points and a 14-period average loss of exactly 0, but its average gain is 0
(not positive), so the claim's only exception does not apply — yet the
computed RSI is NaN (0/0), which is no finite value and in particular not in
[0, 100]. -/
theorem c4_counterexample :
    15 ≤ ([1, 1, 1, 1, 1, 1, 1, 1, 1, 1, 1, 1, 1, 1, (1:ℚ)] : List ℚ).length ∧
    spec_avg_loss [1, 1, 1, 1, 1, 1, 1, 1, 1, 1, 1, 1, 1, 1, (1:ℚ)] 14 14 = 0 ∧
    ¬ 0 < spec_avg_gain [1, 1, 1, 1, 1, 1, 1, 1, 1, 1, 1, 1, 1, 1, (1:ℚ)] 14 14 ∧
    (calculate_rsi [1, 1, 1, 1, 1, 1, 1, 1, 1, 1, 1, 1, 1, 1, (1:ℚ)] 14).getLast? =
      some FVal.nan ∧
    FVal.isFin FVal.nan = false :=
  ⟨by norm_num, spec_avg_loss_ones, by rw [spec_avg_gain_ones]; norm_num,
   rsi_const15_nan, rfl⟩

/-- C4 (amended): for every series with at least 15 points the latest RSI is
a finite value in [0, 100] whenever the 14-period average loss is positive;
when the average loss is exactly 0 and the average gain positive it
degenerates to exactly 100 (via infinite relative strength) rather than
raising; and when average loss and average gain are both 0 (a constant
window) it is NaN, i.e. undefined rather than a value in [0, 100]. -/
theorem c4_rsi_range (s : List ℚ) (h : 15 ≤ s.length) :
    ∃ r, (calculate_rsi s 14).getLast? = some r ∧
      (0 < spec_avg_loss s 14 (s.length - 1) →
        ∃ q : ℚ, r = FVal.fin q ∧ 0 ≤ q ∧ q ≤ 100) ∧
      (spec_avg_loss s 14 (s.length - 1) = 0 →
        0 < spec_avg_gain s 14 (s.length - 1) → r = FVal.fin 100) ∧
      (spec_avg_loss s 14 (s.length - 1) = 0 →
        spec_avg_gain s 14 (s.length - 1) = 0 → r = FVal.nan) := by
  have hi : s.length - 1 < s.length := by omega
  have hpi : 14 ≤ s.length - 1 := by omega
  have hlast : (calculate_rsi s 14).getLast? =
      (calculate_rsi s 14).get? (s.length - 1) := by
    rw [List.getLast?_eq_get?, calculate_rsi_length]
  rw [hlast, calculate_rsi_get?_eq s 14 (s.length - 1) hi,
    rollingMeanAt_gains s 14 (s.length - 1) hpi hi,
    rollingMeanAt_losses s 14 (s.length - 1) hpi hi]
  have hg0 : 0 ≤ spec_avg_gain s 14 (s.length - 1) := spec_avg_gain_nonneg s 14 _
  refine ⟨_, rfl, ?_, ?_, ?_⟩
  · intro hlpos
    have hlne : spec_avg_loss s 14 (s.length - 1) ≠ 0 := ne_of_gt hlpos
    have ht : 0 ≤ spec_avg_gain s 14 (s.length - 1) / spec_avg_loss s 14 (s.length - 1) :=
      div_nonneg hg0 (le_of_lt hlpos)
    have h1 : (0:ℚ) <
        1 + spec_avg_gain s 14 (s.length - 1) / spec_avg_loss s 14 (s.length - 1) := by
      linarith
    rw [rsiOfRs_div_fin _ _ hlne (ne_of_gt h1)]
    refine ⟨_, rfl, ?_, ?_⟩
    · have hle : 100 / (1 + spec_avg_gain s 14 (s.length - 1) /
          spec_avg_loss s 14 (s.length - 1)) ≤ 100 := by
        rw [div_le_iff h1]
        nlinarith
      linarith
    · have hpos : 0 < 100 / (1 + spec_avg_gain s 14 (s.length - 1) /
          spec_avg_loss s 14 (s.length - 1)) := by positivity
      linarith
  · intro hl0 hgpos
    rw [hl0, div_fin_fin_pos_zero _ hgpos, rsiOfRs_pinf]
  · intro hl0 hg0'
    rw [hl0, hg0', div_fin_zero_zero, rsiOfRs_nan]

/-- Witness for C4 at the 15-point alternating series. -/
theorem c4_rsi_range_witness :
    ∃ r, (calculate_rsi [1, 2, 1, 2, 1, 2, 1, 2, 1, 2, 1, 2, 1, 2, (1:ℚ)] 14).getLast? =
        some r ∧
      (0 < spec_avg_loss [1, 2, 1, 2, 1, 2, 1, 2, 1, 2, 1, 2, 1, 2, (1:ℚ)] 14
          (([1, 2, 1, 2, 1, 2, 1, 2, 1, 2, 1, 2, 1, 2, (1:ℚ)] : List ℚ).length - 1) →
        ∃ q : ℚ, r = FVal.fin q ∧ 0 ≤ q ∧ q ≤ 100) ∧
      (spec_avg_loss [1, 2, 1, 2, 1, 2, 1, 2, 1, 2, 1, 2, 1, 2, (1:ℚ)] 14
          (([1, 2, 1, 2, 1, 2, 1, 2, 1, 2, 1, 2, 1, 2, (1:ℚ)] : List ℚ).length - 1) = 0 →
        0 < spec_avg_gain [1, 2, 1, 2, 1, 2, 1, 2, 1, 2, 1, 2, 1, 2, (1:ℚ)] 14
          (([1, 2, 1, 2, 1, 2, 1, 2, 1, 2, 1, 2, 1, 2, (1:ℚ)] : List ℚ).length - 1) →
        r = FVal.fin 100) ∧
      (spec_avg_loss [1, 2, 1, 2, 1, 2, 1, 2, 1, 2, 1, 2, 1, 2, (1:ℚ)] 14
          (([1, 2, 1, 2, 1, 2, 1, 2, 1, 2, 1, 2, 1, 2, (1:ℚ)] : List ℚ).length - 1) = 0 →
        spec_avg_gain [1, 2, 1, 2, 1, 2, 1, 2, 1, 2, 1, 2, 1, 2, (1:ℚ)] 14
          (([1, 2, 1, 2, 1, 2, 1, 2, 1, 2, 1, 2, 1, 2, (1:ℚ)] : List ℚ).length - 1) = 0 →
        r = FVal.nan) :=
  c4_rsi_range [1, 2, 1, 2, 1, 2, 1, 2, 1, 2, 1, 2, 1, 2, (1:ℚ)] (by norm_num)

/-!
## C5: the RSI note classifier
-/

/-- C5: the RSI note classifier maps RSI > 75 to the overheated note, RSI in
(50, 75] to the strong-zone note, RSI in [30, 50] to the consolidating note,
and RSI < 30 to the oversold note; an undefined (NaN) RSI — as arises for a
constant price series, e.g. 15 constant points — is classified as neither
overheated nor oversold (it falls into the consolidating default). -/
theorem c5_rsi_note_classifier :
    (∀ q : ℚ, 75 < q → rsi_note (FVal.fin q) = " (⚠️過熱 | 勿追高)") ∧
    (∀ q : ℚ, 50 < q → q ≤ 75 → rsi_note (FVal.fin q) = " (💪強勢區)") ∧
    (∀ q : ℚ, 30 ≤ q → q ≤ 50 → rsi_note (FVal.fin q) = " (➡️盤整)") ∧
    (∀ q : ℚ, q < 30 → rsi_note (FVal.fin q) = " (✨超賣 | 反彈機會)") ∧
    rsi_note FVal.nan ≠ " (⚠️過熱 | 勿追高)" ∧
    rsi_note FVal.nan ≠ " (✨超賣 | 反彈機會)" ∧
    (calculate_rsi [1, 1, 1, 1, 1, 1, 1, 1, 1, 1, 1, 1, 1, 1, (1:ℚ)] 14).getLast? =
      some FVal.nan := by
  refine ⟨?_, ?_, ?_, ?_, by decide, by decide, rsi_const15_nan⟩
  · intro q h
    simp [rsi_note, gt_fin_fin, h]
  · intro q h1 h2
    have ha : ¬ (75 : ℚ) < q := by linarith
    simp [rsi_note, gt_fin_fin, h1, ha]
  · intro q h1 h2
    have ha : ¬ (75 : ℚ) < q := by linarith
    have hb : ¬ (50 : ℚ) < q := by linarith
    have hc : ¬ q < (30 : ℚ) := by linarith
    simp [rsi_note, gt_fin_fin, lt_fin_fin, ha, hb, hc]
  · intro q h
    have ha : ¬ (75 : ℚ) < q := by linarith
    have hb : ¬ (50 : ℚ) < q := by linarith
    simp [rsi_note, gt_fin_fin, lt_fin_fin, h, ha, hb]

/-- Witness for C5 at the concrete RSI values 80, 60, 40 and 20. -/
theorem c5_rsi_note_classifier_witness :
    rsi_note (FVal.fin 80) = " (⚠️過熱 | 勿追高)" ∧
    rsi_note (FVal.fin 60) = " (💪強勢區)" ∧
    rsi_note (FVal.fin 40) = " (➡️盤整)" ∧
    rsi_note (FVal.fin 20) = " (✨超賣 | 反彈機會)" :=
  ⟨c5_rsi_note_classifier.1 80 (by norm_num),
   c5_rsi_note_classifier.2.1 60 (by norm_num) (by norm_num),
   c5_rsi_note_classifier.2.2.1 40 (by norm_num) (by norm_num),
   c5_rsi_note_classifier.2.2.2.1 20 (by norm_num)⟩
